import Mathlib

set_option maxRecDepth 10000
set_option maxHeartbeats 1000000

/-!
Verification development for the 2D crowd-simulation renderer.

The geometry engine of the repository is shallowly embedded over exact
rational arithmetic: JS numbers become `ℚ`, flat coordinate arrays
`[x1, y1, x2, y2, ...]` of even length become lists of pairs, and the
transcendental `Math.cos`/`Math.sin` evaluations (always applied to a
degree angle converted to radians) are abstracted as oracle functions
`cosD sinD : ℚ → ℚ` taking the degree angle, so every theorem is generic
in the trigonometric oracle.  Randomness (`Math.random`) is passed in as
an explicit sample stream.  Fallible paths return `Option`.
-/

namespace CrowdSim

/-- A 2D point with exact rational coordinates. -/
abbrev Point := ℚ × ℚ

/-- Arena boundary limits as destructured in updateCollisions (src/math.js). -/
structure Bounds where
  maxX : ℚ
  minX : ℚ
  maxY : ℚ
  minY : ℚ
deriving DecidableEq

/-- The obstacle object defined in src/index.js lines 145-158: position,
scale, rotation in degrees, body half-extent sources length and width, the
derived axis-aligned corner fields p1 and p3, and the rendering field
vertexCount. -/
structure Obstacle where
  x : ℚ
  y : ℚ
  scale : ℚ
  rotation : ℚ
  vertexCount : ℚ
  length : ℚ
  width : ℚ
  p1 : Point
  p3 : Point
deriving DecidableEq

/-- The point-vs-obstacle collision predicate isColliding of updateCollisions
(src/math.js lines 45-63); the same logic is duplicated verbatim inside
createNewPosition as isPointColliding (lines 119-131).  cosD and sinD stand
for Math.cos and Math.sin of the degree argument times pi over 180; the code
evaluates them at the negated rotation. -/
def isColliding (cosD sinD : ℚ → ℚ) (o : Obstacle) (x y : ℚ) : Bool :=
  let translatedX := x - o.x
  let translatedY := y - o.y
  let cosAngle := cosD (-o.rotation)
  let sinAngle := sinD (-o.rotation)
  let rotatedX := translatedX * cosAngle - translatedY * sinAngle
  let rotatedY := translatedX * sinAngle + translatedY * cosAngle
  let halfLength := o.length * o.scale / 2
  let halfWidth := o.width * o.scale / 2
  decide (-halfLength ≤ rotatedX) && decide (rotatedX ≤ halfLength) &&
    decide (-halfWidth ≤ rotatedY) && decide (rotatedY ≤ halfWidth)

/-- The rejection-sampling loop of createNewPosition (src/math.js lines
133-145).  rand gives the pair of Math.random draws of each loop iteration
(each in [0,1) in JS); attempts counts completed iterations exactly as the
JS counter does, and the JS loop body runs at most 101 times before the
attempts > 100 break, so the structural fuel of 101 is never exhausted.
The JS return null becomes none.  Note the source returns null on the
101st iteration even before re-testing the loop condition, which the
if-ordering below reproduces. -/
def createNewPositionLoop (cosD sinD : ℚ → ℚ) (o : Obstacle)
    (minX maxX minY maxY : ℚ) (rand : ℕ → ℚ × ℚ) :
    ℕ → ℕ → Option Point
  | _, 0 => none
  | attempts, fuel + 1 =>
    let r := rand attempts
    let newPos : Point := (r.1 * (maxX - minX) + minX, r.2 * (maxY - minY) + minY)
    let colliding := isColliding cosD sinD o newPos.1 newPos.2
    if attempts + 1 > 100 then none
    else if colliding then
      createNewPositionLoop cosD sinD o minX maxX minY maxY rand (attempts + 1) fuel
    else some newPos

/-- createNewPosition (src/math.js lines 113-147): draw uniformly inside the
bounds until a non-colliding point is found, giving up (null) after the
attempts cap. -/
def createNewPosition (cosD sinD : ℚ → ℚ) (o : Obstacle)
    (minX maxX minY maxY : ℚ) (rand : ℕ → ℚ × ℚ) : Option Point :=
  createNewPositionLoop cosD sinD o minX maxX minY maxY rand 0 101

/-- The regeneration loops of updateCollisions (src/math.js lines 89-99): one
createNewPosition call per removed point, pushing newPos.x and newPos.y of
each result.  createNewPosition can return null; the JS then throws a
TypeError reading newPos.x, modelled here as propagating none.  randAt k
gives the sample stream of the k-th createNewPosition call. -/
def regeneratePoints (cosD sinD : ℚ → ℚ) (o : Obstacle)
    (minX maxX minY maxY : ℚ) (randAt : ℕ → ℕ → ℚ × ℚ) :
    ℕ → ℕ → Option (List Point)
  | _, 0 => some []
  | k, n + 1 =>
    match createNewPosition cosD sinD o minX maxX minY maxY (randAt k) with
    | none => none
    | some p =>
      match regeneratePoints cosD sinD o minX maxX minY maxY randAt (k + 1) n with
      | none => none
      | some rest => some (p :: rest)

/-- updateCollisions (src/math.js lines 42-102).  people and dots are the
flat JS position arrays as pair lists; the two targets are the slider
values.  The removed counts are computed as JS does against the targets and
can be negative, in which case the corresponding regeneration loop body
never runs; randAt indexes the createNewPosition calls in program order
(people deficits first, then dots).  A none result models the uncaught
TypeError thrown when a null createNewPosition result is dereferenced. -/
def updateCollisions (cosD sinD : ℚ → ℚ) (o : Obstacle)
    (people dots : List Point) (bounds : Bounds)
    (numberOfDots numberOfPeople : ℕ) (randAt : ℕ → ℕ → ℚ × ℚ) :
    Option (List Point × List Point) :=
  let updatedPeople := people.filter (fun q => !isColliding cosD sinD o q.1 q.2)
  let updatedDots := dots.filter (fun q => !isColliding cosD sinD o q.1 q.2)
  let peopleRemoved : ℤ := (numberOfPeople : ℤ) - updatedPeople.length
  let dotsRemoved : ℤ := (numberOfDots : ℤ) - updatedDots.length
  match regeneratePoints cosD sinD o bounds.minX bounds.maxX bounds.minY bounds.maxY
      randAt 0 peopleRemoved.toNat with
  | none => none
  | some newPeople =>
    match regeneratePoints cosD sinD o bounds.minX bounds.maxX bounds.minY bounds.maxY
        (fun k => randAt (peopleRemoved.toNat + k)) 0 dotsRemoved.toNat with
    | none => none
    | some newDots => some (updatedPeople ++ newPeople, updatedDots ++ newDots)

/-- The per-array resize logic of resetAndRegeneratePoints (src/math.js lines
331-358), applied identically to the people and the dots arrays: shrink by
slicing the front target entries, keep when equal, grow by appending fresh
uniform samples.  gen i gives the i-th appended sample; the WebGL color
buffer refresh of the source (lines 363-364) is rendering plumbing with no
effect on the returned arrays and is omitted. -/
def resetPoints (target : ℕ) (pts : List Point) (gen : ℕ → Point) : List Point :=
  if target < pts.length then pts.take target
  else if target = pts.length then pts
  else pts ++ (List.range (target - pts.length)).map gen

/-- Trigonometric oracle for the concrete zero-rotation scenarios: the JS
Math.cos and Math.sin return exactly 1 and 0 at angle 0, the only angle any
zero-rotation scenario consults. -/
def cosZero : ℚ → ℚ := fun _ => 1

/-- Sine companion of cosZero. -/
def sinZero : ℚ → ℚ := fun _ => 0

/-- The two sequential scale guards opening clamp (src/unnamed/part_003
lines 81-82), named so the clamp proofs can reason about them in
isolation. -/
def clampScale (minScale maxScale s : ℚ) : ℚ :=
  let s1 := if s < minScale then minScale else s
  if s1 > maxScale then maxScale else s1

/-- The two sequential rotation resets of clamp (src/unnamed/part_003 lines
83-84): a rotation at or above 90 resets to 0, then a rotation below -90
resets to 0. -/
def resetRotation (r : ℚ) : ℚ :=
  let r1 := if r ≥ 90 then (0 : ℚ) else r
  if r1 < -90 then 0 else r1

/-- The axis-aligned extents of the rotated obstacle rectangle, as computed
inside clamp (src/unnamed/part_003 lines 86-115): the four local corners
are rotated and translated into world space and their componentwise
minima/maxima taken.  The source folds min and max starting from the
infinities over the four corners, which over a four-element list is the
four-way min/max written here.  Result order: (rotMinX, rotMaxX, rotMinY,
rotMaxY). -/
def rotatedAABB (cosD sinD : ℚ → ℚ) (o : Obstacle) : ℚ × ℚ × ℚ × ℚ :=
  let halfLength := o.length * o.scale / 2
  let halfWidth := o.width * o.scale / 2
  let cosAngle := cosD o.rotation
  let sinAngle := sinD o.rotation
  let rot : Point → Point := fun p =>
    (p.1 * cosAngle - p.2 * sinAngle + o.x, p.1 * sinAngle + p.2 * cosAngle + o.y)
  let c1 := rot (-halfLength, -halfWidth)
  let c2 := rot (halfLength, -halfWidth)
  let c3 := rot (halfLength, halfWidth)
  let c4 := rot (-halfLength, halfWidth)
  (min (min (min c1.1 c2.1) c3.1) c4.1,
   max (max (max c1.1 c2.1) c3.1) c4.1,
   min (min (min c1.2 c2.2) c3.2) c4.2,
   max (max (max c1.2 c2.2) c3.2) c4.2)

/-- The boundary push-back applied per axis by clamp (src/unnamed/part_003
lines 118-121): hi and lo are the stale extents computed before any shift,
so both tests inspect the same pre-push box. -/
def pushBack (mxB mnB hi lo t : ℚ) : ℚ :=
  let t1 := if hi > mxB then t - (hi - mxB) else t
  if lo < mnB then t1 + (mnB - lo) else t1

/-- clamp (src/unnamed/part_003 lines 79-122): clamp the scale, reset a
rotation leaving [-90, 90) to 0, then push the rotated bounding box back
inside the arena, with the box extents computed once on the
scale/rotation-normalized state and reused (stale) by all four pushes. -/
def clamp (cosD sinD : ℚ → ℚ) (o : Obstacle)
    (maxX minX maxY minY minScale maxScale : ℚ) : Obstacle :=
  let o1 := { o with scale := clampScale minScale maxScale o.scale,
                     rotation := resetRotation o.rotation }
  let e := rotatedAABB cosD sinD o1
  { o1 with x := pushBack maxX minX e.2.1 e.1 o1.x,
            y := pushBack maxY minY e.2.2.2 e.2.2.1 o1.y }

/-- Keyboard truthiness snapshot, one field per key name the source reads:
the JS object keyboardEvents indexed with the literal key strings of
src/unnamed/part_003 lines 9-41 (lowercase letter, arrow name, uppercase
letter). -/
structure KeyboardEvents where
  w : Bool
  arrowUp : Bool
  wCap : Bool
  s : Bool
  arrowDown : Bool
  sCap : Bool
  a : Bool
  arrowLeft : Bool
  aCap : Bool
  d : Bool
  arrowRight : Bool
  dCap : Bool
  q : Bool
  qCap : Bool
  e : Bool
  eCap : Bool
  o : Bool
  oCap : Bool
  p : Bool
  pCap : Bool
deriving DecidableEq

/-- calculateMovements (src/unnamed/part_003 lines 7-49): apply each pressed
key delta additively, clamp, then recompute the derived corner fields p1
and p3 from the clamped state.  The JS float literal 0.01 is modelled by
the exact rational 1/100 (no theorem below depends on its value).  Returns
the updated obstacle together with the movement flag, which the source
sets whenever any handled key is pressed. -/
def calculateMovements (cosD sinD : ℚ → ℚ) (keys : KeyboardEvents) (o : Obstacle)
    (maxX minX maxY minY minScale maxScale keyboardSensitivity steps : ℚ) :
    Obstacle × Bool :=
  let cUp := keys.w || keys.arrowUp || keys.wCap
  let cDown := keys.s || keys.arrowDown || keys.sCap
  let cLeft := keys.a || keys.arrowLeft || keys.aCap
  let cRight := keys.d || keys.arrowRight || keys.dCap
  let cRotL := keys.q || keys.qCap
  let cRotR := keys.e || keys.eCap
  let cScaleUp := keys.o || keys.oCap
  let cScaleDown := keys.p || keys.pCap
  let y1 := if cUp then o.y + steps * keyboardSensitivity else o.y
  let y2 := if cDown then y1 - steps * keyboardSensitivity else y1
  let x1 := if cLeft then o.x - steps * keyboardSensitivity else o.x
  let x2 := if cRight then x1 + steps * keyboardSensitivity else x1
  let r1 := if cRotL then o.rotation + 1 * keyboardSensitivity else o.rotation
  let r2 := if cRotR then r1 - 1 * keyboardSensitivity else r1
  let s1 := if cScaleUp then o.scale + 1 / 100 * keyboardSensitivity else o.scale
  let s2 := if cScaleDown then s1 - 1 / 100 * keyboardSensitivity else s1
  let movement := cUp || cDown || cLeft || cRight || cRotL || cRotR || cScaleUp || cScaleDown
  let moved := { o with x := x2, y := y2, rotation := r2, scale := s2 }
  let clamped := clamp cosD sinD moved maxX minX maxY minY minScale maxScale
  let final := { clamped with
    p1 := (clamped.x - clamped.length * clamped.scale / 2,
           clamped.y - clamped.width * clamped.scale / 2),
    p3 := (clamped.x + clamped.length * clamped.scale / 2,
           clamped.y + clamped.width * clamped.scale / 2) }
  (final, movement)

/-- A triangulation result (src/math.js triangulateWithObstacle return
shape): vertex pair list plus a flat triangle index list.  The flat-form
bound vertices.length/2 of the JS arrays is the pair-list length here. -/
structure Mesh where
  vertices : List Point
  indices : List ℕ
deriving DecidableEq

/-- Splits a flat triangle index list into consecutive triples, as every JS
loop over indices does with i += 3; the data these loops run on always has
a multiple-of-3 length, so the trailing-fragment case never arises. -/
def toTriples : List ℕ → List (ℕ × ℕ × ℕ)
  | a :: b :: c :: rest => (a, b, c) :: toTriples rest
  | _ => []

/-- Flattening of a triangle list back into a flat index list, as the JS
triangles.flat() does (src/math.js line 193). -/
def flattenTriples : List (ℕ × ℕ × ℕ) → List ℕ
  | [] => []
  | t :: rest => t.1 :: t.2.1 :: t.2.2 :: flattenTriples rest

/-- getObstacleCorners (src/math.js lines 10-32): the four local half-extent
corners rotated by the obstacle rotation and translated to its position,
in the fixed cyclic source order. -/
def getObstacleCorners (cosD sinD : ℚ → ℚ) (o : Obstacle) : List Point :=
  let halfLength := o.length * o.scale / 2
  let halfWidth := o.width * o.scale / 2
  let cosAngle := cosD o.rotation
  let sinAngle := sinD o.rotation
  [(-halfLength, -halfWidth), (halfLength, -halfWidth),
   (halfLength, halfWidth), (-halfLength, halfWidth)].map
    (fun p => (p.1 * cosAngle - p.2 * sinAngle + o.x,
               p.1 * sinAngle + p.2 * cosAngle + o.y))

/-- triangulateWithObstacle (src/math.js lines 166-195), with the external
cdt2d primitive passed in as a function argument: the free points plus the
four obstacle corners form the point set, the four constraint edges close
the obstacle quad cyclically, and the triangle list returned by the
primitive is flattened.  The cdt2d-undefined throw of lines 167-169 is a
startup configuration failure outside this model. -/
def triangulateWithObstacle
    (cdt2dFn : List Point → List (ℕ × ℕ) → List (ℕ × ℕ × ℕ))
    (cosD sinD : ℚ → ℚ) (o : Obstacle) (flatPoints : List Point) : Mesh :=
  let userPoints := flatPoints
  let obstacleVertices := getObstacleCorners cosD sinD o
  let allPoints := userPoints ++ obstacleVertices
  let n := userPoints.length
  let constraints := [(n, n + 1), (n + 1, n + 2), (n + 2, n + 3), (n + 3, n)]
  let triangles := cdt2dFn allPoints constraints
  { vertices := allPoints, indices := flattenTriples triangles }

/-- Index validity of a mesh: every triangle index names an existing vertex
(the flat-form bound index < vertices.length/2). -/
def meshValid (m : Mesh) : Prop := ∀ i ∈ m.indices, i < m.vertices.length

/-- The barycentric-sign point-in-triangle test of getTriangleDensity
(src/math.js lines 214-221). -/
def isPointInTriangle (px py v1x v1y v2x v2y v3x v3y : ℚ) : Bool :=
  let d1 := (px - v2x) * (v1y - v2y) - (v1x - v2x) * (py - v2y)
  let d2 := (px - v3x) * (v2y - v3y) - (v2x - v3x) * (py - v3y)
  let d3 := (px - v1x) * (v3y - v1y) - (v3x - v1x) * (py - v1y)
  let hasNeg := decide (d1 < 0) || decide (d2 < 0) || decide (d3 < 0)
  let hasPos := decide (d1 > 0) || decide (d2 > 0) || decide (d3 > 0)
  !(hasNeg && hasPos)

/-- The people count of one triangle in getTriangleDensity (src/math.js
lines 244-259).  Vertex lookups out of range read undefined in JS; the
claims never exercise that case, so a zero default stands in. -/
def countPeopleInTriangle (srcVertices : List Point) (people : List Point)
    (t : ℕ × ℕ × ℕ) : ℕ :=
  let v1 := srcVertices.getD t.1 (0, 0)
  let v2 := srcVertices.getD t.2.1 (0, 0)
  let v3 := srcVertices.getD t.2.2 (0, 0)
  people.countP (fun p => isPointInTriangle p.1 p.2 v1.1 v1.2 v2.1 v2.2 v3.1 v3.2)

/-- The three density categories of getTriangleDensity: red overpopulated,
orange correctly populated, blue underpopulated. -/
inductive DensityCategory
  | red
  | orange
  | blue
deriving DecidableEq

/-- The categorization chain of getTriangleDensity (src/math.js lines
262-269). -/
def categorize (count thr : ℕ) : DensityCategory :=
  if count > thr then .red else if count = thr then .orange else .blue

/-- One color bucket of the getTriangleDensity result, carrying its
deduplicated vertex list, its index list, and the vertexMap entries the
source keeps in the parallel vertexMaps object (original index, new
index). -/
structure Bucket where
  vertices : List Point
  indices : List ℕ
  vmap : List (ℕ × ℕ)
deriving DecidableEq

/-- The per-vertex dedup step of getTriangleDensity (src/math.js lines
276-290): an unseen original index appends its coordinates at the next new
index (vertices.length/2 in the flat form, the pair count here) and
records the mapping; the mapped index is pushed either way. -/
def bucketAdd (srcVertices : List Point) (b : Bucket) (originalIndex : ℕ) : Bucket :=
  match b.vmap.lookup originalIndex with
  | some newIndex => { b with indices := b.indices ++ [newIndex] }
  | none =>
    let newIndex := b.vertices.length
    { vertices := b.vertices ++ [srcVertices.getD originalIndex (0, 0)],
      indices := b.indices ++ [newIndex],
      vmap := b.vmap ++ [(originalIndex, newIndex)] }

/-- Adds one triangle (its three original indices in order) to a bucket. -/
def bucketAddTriangle (srcVertices : List Point) (b : Bucket)
    (t : ℕ × ℕ × ℕ) : Bucket :=
  bucketAdd srcVertices (bucketAdd srcVertices (bucketAdd srcVertices b t.1) t.2.1) t.2.2

/-- The three buckets of the getTriangleDensity result (red overpopulated,
orange correct, blue underpopulated). -/
structure DensityResult where
  red : Bucket
  orange : Bucket
  blue : Bucket
deriving DecidableEq

/-- One iteration of the triangle loop of getTriangleDensity (src/math.js
lines 239-291): count the people inside the triangle, categorize, and add
the triangle to the chosen bucket. -/
def densityStep (src : Mesh) (people : List Point) (thr : ℕ)
    (r : DensityResult) (t : ℕ × ℕ × ℕ) : DensityResult :=
  let c := countPeopleInTriangle src.vertices people t
  match categorize c thr with
  | .red => { r with red := bucketAddTriangle src.vertices r.red t }
  | .orange => { r with orange := bucketAddTriangle src.vertices r.orange t }
  | .blue => { r with blue := bucketAddTriangle src.vertices r.blue t }

/-- getTriangleDensity (src/math.js lines 212-294): fold the triangle loop
over the index triples starting from three empty buckets. -/
def getTriangleDensity (src : Mesh) (people : List Point) (thr : ℕ) : DensityResult :=
  (toTriples src.indices).foldl (densityStep src people thr)
    ⟨⟨[], [], []⟩, ⟨[], [], []⟩, ⟨[], [], []⟩⟩

/-- The result record of findClosestEdge.  The source stores the squared
minimum (starting at Infinity, hence the WithTop top) and applies
Math.sqrt only when returning; the square root is irrational in general,
so the model reports the squared distance, which the strictly monotone
square root maps to the reported distance (zero and infinity are fixed). -/
structure ClosestEdge where
  edge : Option (ℕ × ℕ)
  distanceSq : WithTop ℚ
deriving DecidableEq

/-- The three directed candidate edges each triangle contributes, in the
source order of src/math.js line 382. -/
def edgeCandidates : List (ℕ × ℕ × ℕ) → List (ℕ × ℕ)
  | [] => []
  | t :: rest => (t.1, t.2.1) :: (t.2.1, t.2.2) :: (t.2.2, t.1) :: edgeCandidates rest

/-- The squared segment length of an edge as computed at src/math.js line
390 (vertex lookups out of range are never exercised by the claims; a zero
default stands in for the JS undefined). -/
def edgeL2 (vertices : List Point) (e : ℕ × ℕ) : ℚ :=
  let v1 := vertices.getD e.1 (0, 0)
  let v2 := vertices.getD e.2 (0, 0)
  (v1.1 - v2.1) ^ 2 + (v1.2 - v2.2) ^ 2

/-- The squared point-to-segment distance by clamped projection computed for
a non-degenerate edge (src/math.js lines 393-398). -/
def edgeDistSq (p : Point) (vertices : List Point) (e : ℕ × ℕ) : ℚ :=
  let v1 := vertices.getD e.1 (0, 0)
  let v2 := vertices.getD e.2 (0, 0)
  let l2 := (v1.1 - v2.1) ^ 2 + (v1.2 - v2.2) ^ 2
  let t0 := ((p.1 - v1.1) * (v2.1 - v1.1) + (p.2 - v1.2) * (v2.2 - v1.2)) / l2
  let t := max 0 (min 1 t0)
  let cx := v1.1 + t * (v2.1 - v1.1)
  let cy := v1.2 + t * (v2.2 - v1.2)
  (p.1 - cx) ^ 2 + (p.2 - cy) ^ 2

/-- The edge scan of findClosestEdge (src/math.js lines 380-405): skip
zero-length edges, track the strictly smaller squared distance and its
edge. -/
def findClosestEdgeLoop (p : Point) (vertices : List Point) :
    List (ℕ × ℕ) → Option (ℕ × ℕ) → WithTop ℚ → ClosestEdge
  | [], best, minD => { edge := best, distanceSq := minD }
  | e :: rest, best, minD =>
    if edgeL2 vertices e = 0 then findClosestEdgeLoop p vertices rest best minD
    else
      let d := edgeDistSq p vertices e
      if (d : WithTop ℚ) < minD then findClosestEdgeLoop p vertices rest (some e) d
      else findClosestEdgeLoop p vertices rest best minD

/-- findClosestEdge (src/math.js lines 376-407): scan the three edges of
every triangle starting from a null edge at infinite distance. -/
def findClosestEdge (p : Point) (vertices : List Point) (indices : List ℕ) :
    ClosestEdge :=
  findClosestEdgeLoop p vertices (edgeCandidates (toTriples indices)) none ⊤

/-- The nearest-vertex scan of the addTriangle mousedown branch
(src/index.js lines 273-286): state is (index, strict minimum so far,
pick), starting from Infinity and no pick (-1 in the source). -/
def pickVertexLoop (mouse : Point) (pickRadius : ℚ) :
    List Point → ℕ → WithTop ℚ → Option ℕ → Option ℕ
  | [], _, _, best => best
  | c :: rest, i, closest, best =>
    let dx := mouse.1 - c.1
    let dy := mouse.2 - c.2
    let distSq := dx * dx + dy * dy
    if (distSq : WithTop ℚ) < (pickRadius * pickRadius : ℚ) ∧ (distSq : WithTop ℚ) < closest then
      pickVertexLoop mouse pickRadius rest (i + 1) distSq (some i)
    else
      pickVertexLoop mouse pickRadius rest (i + 1) closest best

/-- The full pick over the candidate list (allTriPoints as a pair list: the
JS flat index i maps to pair index i/2, the pickedVertexIndex). -/
def pickVertex (mouse : Point) (pickRadius : ℚ) (candidates : List Point) : Option ℕ :=
  pickVertexLoop mouse pickRadius candidates 0 ⊤ none

/-- One mousedown in addTriangle mode (src/index.js lines 272-299):
candidates is allTriPoints (current dots, then arena corners, then
obstacle corners); a successful pick not already selected joins the
selection, and the third selection appends the triple to the mesh indices
and clears the selection. -/
def addTriangleClick (mouse : Point) (pickRadius : ℚ) (candidates : List Point)
    (selection : List ℕ) (m : Mesh) : List ℕ × Mesh :=
  match pickVertex mouse pickRadius candidates with
  | none => (selection, m)
  | some k =>
    if k ∈ selection then (selection, m)
    else
      let sel := selection ++ [k]
      if sel.length = 3 then ([], { m with indices := m.indices ++ sel })
      else (sel, m)

/-- Order-independent membership of a vertex in an index triple, the JS
tri.includes test of src/index.js line 311. -/
def triHas (t : ℕ × ℕ × ℕ) (v : ℕ) : Bool :=
  decide (t.1 = v) || decide (t.2.1 = v) || decide (t.2.2 = v)

/-- The index rebuild of the deleteEdge mousedown branch (src/index.js lines
307-315): keep every triple that does not contain both edge endpoints. -/
def deleteEdgeIndices (v1 v2 : ℕ) : List ℕ → List ℕ
  | a :: b :: c :: rest =>
    if triHas (a, b, c) v1 && triHas (a, b, c) v2 then deleteEdgeIndices v1 v2 rest
    else a :: b :: c :: deleteEdgeIndices v1 v2 rest
  | _ => []

/-- The deleteEdge mutation on the mesh: indices rebuilt, vertices aliased
unchanged (the handler only reassigns triangle.indices). -/
def deleteEdgeMesh (v1 v2 : ℕ) (m : Mesh) : Mesh :=
  { m with indices := deleteEdgeIndices v1 v2 m.indices }

/-- The startup obstacle of src/index.js lines 145-158. -/
def demoObstacle : Obstacle :=
  { x := 0, y := 0, scale := 1, rotation := 0, vertexCount := 6,
    length := 100, width := 100, p1 := (-50, -50), p3 := (50, 50) }

/-- The startup arena bounds of src/index.js at aspect ratio 1. -/
def arenaBounds : Bounds := { maxX := 100, minX := -100, maxY := 100, minY := -100 }

/-- A degenerate far-away obstacle (a single point at (50, 50)) whose
collision region meets none of the sample points used in the concrete
scenarios. -/
def farObstacle : Obstacle :=
  { x := 50, y := 50, scale := 1, rotation := 0, vertexCount := 6,
    length := 0, width := 0, p1 := (50, 50), p3 := (50, 50) }

/-- An obstacle wider than a narrow test arena, positioned off center: the
clamp push-back oscillates on it. -/
def wideObstacle : Obstacle :=
  { x := 1 / 2, y := 0, scale := 1, rotation := 0, vertexCount := 6,
    length := 5, width := 1, p1 := (0, 0), p3 := (0, 0) }

/-- The sole-triangle mesh of the density concrete scenario in the spec. -/
def demoMesh : Mesh := { vertices := [(0, 0), (10, 0), (0, 10)], indices := [0, 1, 2] }

/-- A stand-in for the external cdt2d primitive that returns a single
triangle over the first three input points; on every point set of at least
three points it satisfies the cdt2d output contract (all indices below the
input point count). -/
def cdtStub : List Point → List (ℕ × ℕ) → List (ℕ × ℕ × ℕ) := fun _ _ => [(0, 1, 2)]

/-- The arena corner points appended to the dots before triangulation
(src/index.js lines 176-181). -/
def arenaCorners : List Point := [(-100, 100), (100, 100), (100, -100), (-100, -100)]

/-- A mesh triangulated while the dots array was empty: its vertex list is
the four arena corners plus the four obstacle corners (eight vertices). -/
def staleMesh : Mesh :=
  triangulateWithObstacle cdtStub cosZero sinZero demoObstacle arenaCorners

/-- Five dots added after the mesh above was built (slider growth triggers
update(false), which does not retriangulate). -/
def grownDots : List Point := [(10, 10), (20, 10), (30, 10), (40, 10), (10, 20)]

/-- The allTriPoints candidate list a later addTriangle mousedown builds
from the grown dots (src/index.js line 269): current dots, arena corners,
obstacle corners — thirteen candidates against the eight stale mesh
vertices. -/
def grownCandidates : List Point :=
  grownDots ++ arenaCorners ++ getObstacleCorners cosZero sinZero demoObstacle

/-! ### Obstacle transform model: clamp invariants and idempotence -/

/-- Helper: the scale clamp lands in the scale interval whenever the
interval is nonempty. -/
theorem clampScale_mem (minScale maxScale s : ℚ) (h : minScale ≤ maxScale) :
    minScale ≤ clampScale minScale maxScale s ∧
      clampScale minScale maxScale s ≤ maxScale := by
  simp only [clampScale]
  split_ifs <;> constructor <;> linarith

/-- Helper: the two-sided scale clamp is idempotent. -/
theorem clampScale_idem (minScale maxScale s : ℚ) :
    clampScale minScale maxScale (clampScale minScale maxScale s) =
      clampScale minScale maxScale s := by
  simp only [clampScale]
  split_ifs <;> linarith

/-- Helper: the rotation reset lands in [-90, 90). -/
theorem resetRotation_mem (r : ℚ) :
    -90 ≤ resetRotation r ∧ resetRotation r < 90 := by
  simp only [resetRotation]
  split_ifs <;> constructor <;> linarith

/-- Helper: a rotation already in [-90, 90) is left unchanged. -/
theorem resetRotation_eq_self (r : ℚ) (h1 : -90 ≤ r) (h2 : r < 90) :
    resetRotation r = r := by
  simp only [resetRotation]
  split_ifs <;> linarith

/-- Helper: a rotation outside [-90, 90) resets to 0. -/
theorem resetRotation_eq_zero (r : ℚ) (h : 90 ≤ r ∨ r < -90) :
    resetRotation r = 0 := by
  simp only [resetRotation]
  rcases h with h | h <;> split_ifs <;> linarith

/-- Helper: the rotation reset is idempotent. -/
theorem resetRotation_idem (r : ℚ) :
    resetRotation (resetRotation r) = resetRotation r :=
  resetRotation_eq_self _ (resetRotation_mem r).1 (resetRotation_mem r).2

/-- C9: after clamp the scale lies in [minScale, maxScale] (whenever that
interval is nonempty) and the rotation lies in [-90, 90); a rotation at or
above 90 or strictly below -90 is reset to exactly 0, and a rotation
already inside [-90, 90) — including exactly -90 — is left unchanged. -/
theorem clamp_scale_rotation_invariant
    (cosD sinD : ℚ → ℚ) (o : Obstacle)
    (maxX minX maxY minY minScale maxScale : ℚ) (h : minScale ≤ maxScale) :
    minScale ≤ (clamp cosD sinD o maxX minX maxY minY minScale maxScale).scale ∧
    (clamp cosD sinD o maxX minX maxY minY minScale maxScale).scale ≤ maxScale ∧
    -90 ≤ (clamp cosD sinD o maxX minX maxY minY minScale maxScale).rotation ∧
    (clamp cosD sinD o maxX minX maxY minY minScale maxScale).rotation < 90 ∧
    (90 ≤ o.rotation ∨ o.rotation < -90 →
      (clamp cosD sinD o maxX minX maxY minY minScale maxScale).rotation = 0) ∧
    (-90 ≤ o.rotation → o.rotation < 90 →
      (clamp cosD sinD o maxX minX maxY minY minScale maxScale).rotation = o.rotation) := by
  have hs := clampScale_mem minScale maxScale o.scale h
  have hr := resetRotation_mem o.rotation
  exact ⟨hs.1, hs.2, hr.1, hr.2,
    fun hout => resetRotation_eq_zero o.rotation hout,
    fun h1 h2 => resetRotation_eq_self o.rotation h1 h2⟩

/-- Witness for the clamp invariant at the startup obstacle and arena. -/
theorem clamp_scale_rotation_invariant_witness :
    (1 : ℚ) / 10 ≤ 3 / 2 ∧
    ((1 : ℚ) / 10 ≤ (clamp cosZero sinZero demoObstacle 100 (-100) 100 (-100)
        (1 / 10) (3 / 2)).scale ∧
      (clamp cosZero sinZero demoObstacle 100 (-100) 100 (-100)
        (1 / 10) (3 / 2)).scale ≤ 3 / 2 ∧
      -90 ≤ (clamp cosZero sinZero demoObstacle 100 (-100) 100 (-100)
        (1 / 10) (3 / 2)).rotation ∧
      (clamp cosZero sinZero demoObstacle 100 (-100) 100 (-100)
        (1 / 10) (3 / 2)).rotation < 90 ∧
      (90 ≤ demoObstacle.rotation ∨ demoObstacle.rotation < -90 →
        (clamp cosZero sinZero demoObstacle 100 (-100) 100 (-100)
          (1 / 10) (3 / 2)).rotation = 0) ∧
      (-90 ≤ demoObstacle.rotation → demoObstacle.rotation < 90 →
        (clamp cosZero sinZero demoObstacle 100 (-100) 100 (-100)
          (1 / 10) (3 / 2)).rotation = demoObstacle.rotation)) :=
  ⟨by norm_num,
   clamp_scale_rotation_invariant cosZero sinZero demoObstacle 100 (-100) 100 (-100)
     (1 / 10) (3 / 2) (by norm_num)⟩

/-- Helper: four-way minimum of uniformly shifted values. -/
theorem min4_add (a b c d t : ℚ) :
    min (min (min (a + t) (b + t)) (c + t)) (d + t) = min (min (min a b) c) d + t := by
  simp [min_add_add_right]

/-- Helper: four-way maximum of uniformly shifted values. -/
theorem max4_add (a b c d t : ℚ) :
    max (max (max (a + t) (b + t)) (c + t)) (d + t) = max (max (max a b) c) d + t := by
  simp [max_add_add_right]

/-- Helper: moving the obstacle shifts its rotated bounding box extents by
exactly the displacement, leaving the box dimensions unchanged. -/
theorem rotatedAABB_shift (cosD sinD : ℚ → ℚ) (o : Obstacle) (X Y : ℚ) :
    (rotatedAABB cosD sinD { o with x := X, y := Y }).1 =
      (rotatedAABB cosD sinD o).1 + (X - o.x) ∧
    (rotatedAABB cosD sinD { o with x := X, y := Y }).2.1 =
      (rotatedAABB cosD sinD o).2.1 + (X - o.x) ∧
    (rotatedAABB cosD sinD { o with x := X, y := Y }).2.2.1 =
      (rotatedAABB cosD sinD o).2.2.1 + (Y - o.y) ∧
    (rotatedAABB cosD sinD { o with x := X, y := Y }).2.2.2 =
      (rotatedAABB cosD sinD o).2.2.2 + (Y - o.y) := by
  refine ⟨?_, ?_, ?_, ?_⟩ <;>
    · simp only [rotatedAABB, min4_add, max4_add]
      ring

/-- Helper: clamp unfolded against a named normalized state, avoiding
nested record updates in statements. -/
theorem clamp_unfold (cosD sinD : ℚ → ℚ) (q q1 : Obstacle)
    (maxX minX maxY minY minScale maxScale : ℚ)
    (hq1 : q1 = { q with scale := clampScale minScale maxScale q.scale,
                         rotation := resetRotation q.rotation }) :
    clamp cosD sinD q maxX minX maxY minY minScale maxScale =
      { q1 with
        x := pushBack maxX minX (rotatedAABB cosD sinD q1).2.1
          (rotatedAABB cosD sinD q1).1 q1.x,
        y := pushBack maxY minY (rotatedAABB cosD sinD q1).2.2.2
          (rotatedAABB cosD sinD q1).2.2.1 q1.y } := by
  subst hq1
  rfl

/-- Helper: on a state whose scale and rotation are already normalized,
clamp only applies the two push-backs. -/
theorem clamp_eq_of_normalized (cosD sinD : ℚ → ℚ) (q : Obstacle)
    (maxX minX maxY minY minScale maxScale : ℚ)
    (hs : clampScale minScale maxScale q.scale = q.scale)
    (hr : resetRotation q.rotation = q.rotation) :
    clamp cosD sinD q maxX minX maxY minY minScale maxScale =
      { q with
        x := pushBack maxX minX (rotatedAABB cosD sinD q).2.1
          (rotatedAABB cosD sinD q).1 q.x,
        y := pushBack maxY minY (rotatedAABB cosD sinD q).2.2.2
          (rotatedAABB cosD sinD q).2.2.1 q.y } := by
  have hbase : ({ q with scale := clampScale minScale maxScale q.scale,
                         rotation := resetRotation q.rotation } : Obstacle) = q := by
    rw [hs, hr]
  have h1 := clamp_unfold cosD sinD q
    { q with scale := clampScale minScale maxScale q.scale,
             rotation := resetRotation q.rotation }
    maxX minX maxY minY minScale maxScale rfl
  rw [h1, hbase]

/-- Helper: when the box is no wider than the arena, one push places both
extents inside the bounds. -/
theorem pushBack_within (mxB mnB hi lo t : ℚ) (h : hi - lo ≤ mxB - mnB) :
    hi + (pushBack mxB mnB hi lo t - t) ≤ mxB ∧
    mnB ≤ lo + (pushBack mxB mnB hi lo t - t) := by
  simp only [pushBack]
  split_ifs <;> constructor <;> linarith

/-- Helper: a push with both extents already inside the bounds is the
identity. -/
theorem pushBack_noop (mxB mnB hi lo t : ℚ) (hHi : hi ≤ mxB) (hLo : mnB ≤ lo) :
    pushBack mxB mnB hi lo t = t := by
  simp only [pushBack]
  split_ifs <;> linarith

/-- C2 amended: clamp is idempotent on every obstacle whose clamped rotated
bounding box is no larger than the arena in each dimension (in particular
whenever the obstacle fits the arena); the oversized counterexample shows
the hypothesis is necessary, because the push-back works from box extents
computed before any shift. -/
theorem clamp_idempotent_of_fits (cosD sinD : ℚ → ℚ) (o : Obstacle)
    (maxX minX maxY minY minScale maxScale : ℚ)
    (hx : (rotatedAABB cosD sinD
        (clamp cosD sinD o maxX minX maxY minY minScale maxScale)).2.1 -
      (rotatedAABB cosD sinD
        (clamp cosD sinD o maxX minX maxY minY minScale maxScale)).1 ≤ maxX - minX)
    (hy : (rotatedAABB cosD sinD
        (clamp cosD sinD o maxX minX maxY minY minScale maxScale)).2.2.2 -
      (rotatedAABB cosD sinD
        (clamp cosD sinD o maxX minX maxY minY minScale maxScale)).2.2.1 ≤ maxY - minY) :
    clamp cosD sinD (clamp cosD sinD o maxX minX maxY minY minScale maxScale)
      maxX minX maxY minY minScale maxScale =
    clamp cosD sinD o maxX minX maxY minY minScale maxScale := by
  set Q : Obstacle := { o with scale := clampScale minScale maxScale o.scale,
                               rotation := resetRotation o.rotation } with hQ
  have hP : clamp cosD sinD o maxX minX maxY minY minScale maxScale =
      { Q with
        x := pushBack maxX minX (rotatedAABB cosD sinD Q).2.1
          (rotatedAABB cosD sinD Q).1 Q.x,
        y := pushBack maxY minY (rotatedAABB cosD sinD Q).2.2.2
          (rotatedAABB cosD sinD Q).2.2.1 Q.y } :=
    clamp_unfold cosD sinD o Q maxX minX maxY minY minScale maxScale hQ
  set A := rotatedAABB cosD sinD Q with hA
  set X2 := pushBack maxX minX A.2.1 A.1 Q.x with hX2
  set Y2 := pushBack maxY minY A.2.2.2 A.2.2.1 Q.y with hY2
  have hs2 : clampScale minScale maxScale
      (clamp cosD sinD o maxX minX maxY minY minScale maxScale).scale =
      (clamp cosD sinD o maxX minX maxY minY minScale maxScale).scale := by
    rw [hP]
    show clampScale minScale maxScale Q.scale = Q.scale
    rw [hQ]
    exact clampScale_idem minScale maxScale o.scale
  have hr2 : resetRotation
      (clamp cosD sinD o maxX minX maxY minY minScale maxScale).rotation =
      (clamp cosD sinD o maxX minX maxY minY minScale maxScale).rotation := by
    rw [hP]
    show resetRotation Q.rotation = Q.rotation
    rw [hQ]
    exact resetRotation_idem o.rotation
  have hmain := clamp_eq_of_normalized cosD sinD
    (clamp cosD sinD o maxX minX maxY minY minScale maxScale)
    maxX minX maxY minY minScale maxScale hs2 hr2
  rw [hmain, hP]
  have hsh := rotatedAABB_shift cosD sinD Q X2 Y2
  rw [hP] at hx hy
  rw [hsh.2.1, hsh.1] at hx
  rw [hsh.2.2.2, hsh.2.2.1] at hy
  have hfx : A.2.1 - A.1 ≤ maxX - minX := by linarith
  have hfy : A.2.2.2 - A.2.2.1 ≤ maxY - minY := by linarith
  have hwx := pushBack_within maxX minX A.2.1 A.1 Q.x hfx
  have hwy := pushBack_within maxY minY A.2.2.2 A.2.2.1 Q.y hfy
  rw [← hX2] at hwx
  rw [← hY2] at hwy
  have h1 : pushBack maxX minX (A.2.1 + (X2 - Q.x)) (A.1 + (X2 - Q.x)) X2 = X2 :=
    pushBack_noop maxX minX _ _ X2 hwx.1 hwx.2
  have h2 : pushBack maxY minY (A.2.2.2 + (Y2 - Q.y)) (A.2.2.1 + (Y2 - Q.y)) Y2 = Y2 :=
    pushBack_noop maxY minY _ _ Y2 hwy.1 hwy.2
  rw [hsh.2.1, hsh.1, hsh.2.2.2, hsh.2.2.1]
  show ({ Q with x := pushBack maxX minX (A.2.1 + (X2 - Q.x)) (A.1 + (X2 - Q.x)) X2,
                 y := pushBack maxY minY (A.2.2.2 + (Y2 - Q.y)) (A.2.2.1 + (Y2 - Q.y)) Y2 } :
      Obstacle) =
    { Q with x := X2, y := Y2 }
  rw [h1, h2]

/-- C2 counterexample: on an obstacle five wide in an arena two wide
(rotation 0, so all trigonometric values are exact), one clamp moves x from
1/2 to -1/2 and a second clamp moves it back to 1/2: applying clamp twice
does not equal applying it once. -/
theorem clamp_not_idempotent_oversized :
    (clamp cosZero sinZero (clamp cosZero sinZero wideObstacle 1 (-1) 10 (-10) 1 1)
      1 (-1) 10 (-10) 1 1).x = 1 / 2 ∧
    (clamp cosZero sinZero wideObstacle 1 (-1) 10 (-10) 1 1).x = -(1 / 2) ∧
    clamp cosZero sinZero (clamp cosZero sinZero wideObstacle 1 (-1) 10 (-10) 1 1)
      1 (-1) 10 (-10) 1 1 ≠ clamp cosZero sinZero wideObstacle 1 (-1) 10 (-10) 1 1 := by
  have h1 : (clamp cosZero sinZero (clamp cosZero sinZero wideObstacle 1 (-1) 10 (-10) 1 1)
      1 (-1) 10 (-10) 1 1).x = 1 / 2 := by
    norm_num [clamp, clampScale, resetRotation, rotatedAABB, pushBack, cosZero, sinZero,
      wideObstacle]
  have h2 : (clamp cosZero sinZero wideObstacle 1 (-1) 10 (-10) 1 1).x = -(1 / 2) := by
    norm_num [clamp, clampScale, resetRotation, rotatedAABB, pushBack, cosZero, sinZero,
      wideObstacle]
  refine ⟨h1, h2, fun h => ?_⟩
  have h3 := congrArg Obstacle.x h
  rw [h1, h2] at h3
  norm_num at h3

/-- Witness for the fit-conditioned idempotence at the startup obstacle in
the startup arena. -/
theorem clamp_idempotent_of_fits_witness :
    clamp cosZero sinZero
      (clamp cosZero sinZero demoObstacle 100 (-100) 100 (-100) (1 / 10) (3 / 2))
      100 (-100) 100 (-100) (1 / 10) (3 / 2) =
    clamp cosZero sinZero demoObstacle 100 (-100) 100 (-100) (1 / 10) (3 / 2) :=
  clamp_idempotent_of_fits cosZero sinZero demoObstacle 100 (-100) 100 (-100)
    (1 / 10) (3 / 2)
    (by norm_num [clamp, clampScale, resetRotation, rotatedAABB, pushBack, cosZero,
      sinZero, demoObstacle])
    (by norm_num [clamp, clampScale, resetRotation, rotatedAABB, pushBack, cosZero,
      sinZero, demoObstacle])

/-- C10: calculateMovements, clamp included, leaves every obstacle field
other than x, y, scale, rotation and the derived corners p1 and p3
unchanged: length, width and vertexCount are preserved for every key
combination and every parameter choice. -/
theorem calculateMovements_preserves_shape_fields
    (cosD sinD : ℚ → ℚ) (keys : KeyboardEvents) (o : Obstacle)
    (maxX minX maxY minY minScale maxScale keyboardSensitivity steps : ℚ) :
    (calculateMovements cosD sinD keys o maxX minX maxY minY minScale maxScale
        keyboardSensitivity steps).1.length = o.length ∧
    (calculateMovements cosD sinD keys o maxX minX maxY minY minScale maxScale
        keyboardSensitivity steps).1.width = o.width ∧
    (calculateMovements cosD sinD keys o maxX minX maxY minY minScale maxScale
        keyboardSensitivity steps).1.vertexCount = o.vertexCount :=
  ⟨rfl, rfl, rfl⟩

/-! ### Spawn/collision resolver: exhaustion, exclusion, truncation -/

/-- Helper: when every sample the stream produces collides, the rejection
loop returns none at every fuel and attempts value. -/
theorem createNewPositionLoop_none_of_all_colliding
    (cosD sinD : ℚ → ℚ) (o : Obstacle) (minX maxX minY maxY : ℚ)
    (rand : ℕ → ℚ × ℚ)
    (h : ∀ i, isColliding cosD sinD o ((rand i).1 * (maxX - minX) + minX)
      ((rand i).2 * (maxY - minY) + minY) = true) :
    ∀ fuel attempts,
      createNewPositionLoop cosD sinD o minX maxX minY maxY rand attempts fuel = none := by
  intro fuel
  induction fuel with
  | zero => intro attempts; rfl
  | succ n ih =>
    intro attempts
    simp only [createNewPositionLoop, h attempts, ih]
    split_ifs <;> rfl

/-- C1: a reachable exhaustion of the 100-attempt rejection-sampling cap.
With the startup obstacle and arena and a random stream that happens to
return 1/2 on every draw, every sample lands at the obstacle center, so
createNewPosition gives up and returns null; updateCollisions then
dereferences that null (newPos.x at src/math.js line 92) instead of
skipping the point, modelled by the none (thrown TypeError) result. -/
theorem updateCollisions_exhaustion_crash :
    createNewPosition cosZero sinZero demoObstacle (-100) 100 (-100) 100
      (fun _ => (1 / 2, 1 / 2)) = none ∧
    updateCollisions cosZero sinZero demoObstacle [] [] arenaBounds 0 1
      (fun _ _ => (1 / 2, 1 / 2)) = none := by
  have h : ∀ i : ℕ, isColliding cosZero sinZero demoObstacle
      (((fun _ : ℕ => ((1 : ℚ) / 2, (1 : ℚ) / 2)) i).1 * (100 - -100) + -100)
      (((fun _ : ℕ => ((1 : ℚ) / 2, (1 : ℚ) / 2)) i).2 * (100 - -100) + -100) = true := by
    intro i
    norm_num [isColliding, cosZero, sinZero, demoObstacle]
  have hnone := createNewPositionLoop_none_of_all_colliding cosZero sinZero demoObstacle
    (-100) 100 (-100) 100 (fun _ => (1 / 2, 1 / 2)) h
  constructor
  · exact hnone 101 0
  · simp only [updateCollisions, arenaBounds, List.filter, List.length_nil]
    norm_num [regeneratePoints, createNewPosition, hnone 101 0]

/-- Helper: a point the rejection loop returns never collides. -/
theorem createNewPositionLoop_some_not_colliding
    (cosD sinD : ℚ → ℚ) (o : Obstacle) (minX maxX minY maxY : ℚ)
    (rand : ℕ → ℚ × ℚ) :
    ∀ fuel attempts p,
      createNewPositionLoop cosD sinD o minX maxX minY maxY rand attempts fuel = some p →
      isColliding cosD sinD o p.1 p.2 = false := by
  intro fuel
  induction fuel with
  | zero => intro attempts p hp; exact absurd hp (by simp [createNewPositionLoop])
  | succ n ih =>
    intro attempts p hp
    simp only [createNewPositionLoop] at hp
    split_ifs at hp with h1 h2
    · exact ih (attempts + 1) p hp
    · rcases Option.some_inj.mp hp with rfl
      simpa using h2

/-- Helper: every point a regeneration loop returns is collision-free. -/
theorem regeneratePoints_some_not_colliding
    (cosD sinD : ℚ → ℚ) (o : Obstacle) (minX maxX minY maxY : ℚ)
    (randAt : ℕ → ℕ → ℚ × ℚ) :
    ∀ n k l, regeneratePoints cosD sinD o minX maxX minY maxY randAt k n = some l →
      ∀ p ∈ l, isColliding cosD sinD o p.1 p.2 = false := by
  intro n
  induction n with
  | zero =>
    intro k l hl p hp
    simp only [regeneratePoints] at hl
    rcases Option.some_inj.mp hl with rfl
    simp at hp
  | succ m ih =>
    intro k l hl p hp
    simp only [regeneratePoints] at hl
    rcases hcnp : createNewPosition cosD sinD o minX maxX minY maxY (randAt k) with _ | q
    · rw [hcnp] at hl; exact absurd hl (by simp)
    · rw [hcnp] at hl
      rcases hrec : regeneratePoints cosD sinD o minX maxX minY maxY randAt (k + 1) m
        with _ | rest
      · rw [hrec] at hl; exact absurd hl (by simp)
      · rw [hrec] at hl
        rcases Option.some_inj.mp hl with rfl
        rcases List.mem_cons.mp hp with rfl | hmem
        · exact createNewPositionLoop_some_not_colliding cosD sinD o minX maxX minY maxY
            (randAt k) 101 0 p hcnp
        · exact ih (k + 1) rest hrec p hmem

/-- C5: whenever updateCollisions completes (every replacement generation
succeeded within the retry cap), no point of either returned array
satisfies the collision predicate: survivors were filtered by it and
regenerated points were rejection-sampled against it. -/
theorem updateCollisions_collision_free
    (cosD sinD : ℚ → ℚ) (o : Obstacle) (people dots : List Point)
    (bounds : Bounds) (numberOfDots numberOfPeople : ℕ)
    (randAt : ℕ → ℕ → ℚ × ℚ) (res : List Point × List Point)
    (h : updateCollisions cosD sinD o people dots bounds numberOfDots numberOfPeople
      randAt = some res) :
    (∀ p ∈ res.1, isColliding cosD sinD o p.1 p.2 = false) ∧
    (∀ p ∈ res.2, isColliding cosD sinD o p.1 p.2 = false) := by
  simp only [updateCollisions] at h
  rcases h1 : regeneratePoints cosD sinD o bounds.minX bounds.maxX bounds.minY bounds.maxY
      randAt 0
      ((numberOfPeople : ℤ) -
        (people.filter (fun q => !isColliding cosD sinD o q.1 q.2)).length).toNat
    with _ | newPeople
  · rw [h1] at h; exact absurd h (by simp)
  · rw [h1] at h
    rcases h2 : regeneratePoints cosD sinD o bounds.minX bounds.maxX bounds.minY bounds.maxY
        (fun k => randAt
          (((numberOfPeople : ℤ) -
            (people.filter (fun q => !isColliding cosD sinD o q.1 q.2)).length).toNat + k)) 0
        ((numberOfDots : ℤ) -
          (dots.filter (fun q => !isColliding cosD sinD o q.1 q.2)).length).toNat
      with _ | newDots
    · rw [h2] at h; exact absurd h (by simp)
    · rw [h2] at h
      rcases Option.some_inj.mp h with rfl
      constructor
      · intro p hp
        rcases List.mem_append.mp hp with hmem | hmem
        · have := (List.mem_filter.mp hmem).2
          simpa using this
        · exact regeneratePoints_some_not_colliding cosD sinD o bounds.minX bounds.maxX
            bounds.minY bounds.maxY randAt _ 0 newPeople h1 p hmem
      · intro p hp
        rcases List.mem_append.mp hp with hmem | hmem
        · have := (List.mem_filter.mp hmem).2
          simpa using this
        · exact regeneratePoints_some_not_colliding cosD sinD o bounds.minX bounds.maxX
            bounds.minY bounds.maxY _ _ 0 newDots h2 p hmem

/-- Witness for the collision-exclusion theorem: a far-away obstacle, a
two-person population, no deficit, evaluated at the startup arena. -/
theorem updateCollisions_collision_free_witness :
    (∀ p ∈ ([(0, 0), (1, 1)] : List Point),
      isColliding cosZero sinZero farObstacle p.1 p.2 = false) ∧
    (∀ p ∈ ([] : List Point),
      isColliding cosZero sinZero farObstacle p.1 p.2 = false) :=
  updateCollisions_collision_free cosZero sinZero farObstacle [(0, 0), (1, 1)] []
    arenaBounds 0 1 (fun _ _ => (1 / 2, 1 / 2)) ([(0, 0), (1, 1)], [])
    (by norm_num [updateCollisions, regeneratePoints, isColliding, cosZero, sinZero,
      farObstacle, arenaBounds, List.filter])

/-- C3 counterexample: with two surviving people and target count 1,
updateCollisions returns both survivors — not the front-1 prefix the claim
demands (the negative deficit simply skips the regeneration loop; no
truncation happens anywhere in resolve). -/
theorem updateCollisions_does_not_truncate :
    updateCollisions cosZero sinZero farObstacle [(0, 0), (1, 1)] [] arenaBounds 0 1
      (fun _ _ => (1 / 2, 1 / 2)) = some ([(0, 0), (1, 1)], []) ∧
    ([(0, 0), (1, 1)] : List Point) ≠ List.take 1 [(0, 0), (1, 1)] := by
  constructor
  · norm_num [updateCollisions, regeneratePoints, isColliding, cosZero, sinZero,
      farObstacle, arenaBounds, List.filter]
  · simp

/-- C3 amended: when the target is at most the surviving count,
updateCollisions returns the survivors unchanged (no truncation), for the
people and the dots array alike; the front-prefix truncation happens only
in the resize entrypoint resetAndRegeneratePoints, which takes the front
target points when the target shrinks. -/
theorem resolve_prefix_semantics :
    (∀ (cosD sinD : ℚ → ℚ) (o : Obstacle) (people dots : List Point) (bounds : Bounds)
      (numberOfDots numberOfPeople : ℕ) (randAt : ℕ → ℕ → ℚ × ℚ)
      (res : List Point × List Point),
      updateCollisions cosD sinD o people dots bounds numberOfDots numberOfPeople randAt =
        some res →
      numberOfPeople ≤ (people.filter (fun q => !isColliding cosD sinD o q.1 q.2)).length →
      res.1 = people.filter (fun q => !isColliding cosD sinD o q.1 q.2)) ∧
    (∀ (cosD sinD : ℚ → ℚ) (o : Obstacle) (people dots : List Point) (bounds : Bounds)
      (numberOfDots numberOfPeople : ℕ) (randAt : ℕ → ℕ → ℚ × ℚ)
      (res : List Point × List Point),
      updateCollisions cosD sinD o people dots bounds numberOfDots numberOfPeople randAt =
        some res →
      numberOfDots ≤ (dots.filter (fun q => !isColliding cosD sinD o q.1 q.2)).length →
      res.2 = dots.filter (fun q => !isColliding cosD sinD o q.1 q.2)) ∧
    (∀ (target : ℕ) (pts : List Point) (gen : ℕ → Point),
      target < pts.length → resetPoints target pts gen = pts.take target) := by
  refine ⟨?_, ?_, ?_⟩
  · intro cosD sinD o people dots bounds nD nP randAt res h hle
    simp only [updateCollisions] at h
    have hz : ((nP : ℤ) -
        ((people.filter (fun q => !isColliding cosD sinD o q.1 q.2)).length : ℤ)).toNat =
        0 := by
      omega
    rw [hz] at h
    simp only [regeneratePoints] at h
    rcases h2 : regeneratePoints cosD sinD o bounds.minX bounds.maxX bounds.minY bounds.maxY
        (fun k => randAt (0 + k)) 0
        ((nD : ℤ) - (dots.filter (fun q => !isColliding cosD sinD o q.1 q.2)).length).toNat
      with _ | newDots
    · rw [h2] at h; exact absurd h (by simp)
    · rw [h2] at h
      rcases Option.some_inj.mp h with rfl
      simp
  · intro cosD sinD o people dots bounds nD nP randAt res h hle
    simp only [updateCollisions] at h
    have hz : ((nD : ℤ) -
        ((dots.filter (fun q => !isColliding cosD sinD o q.1 q.2)).length : ℤ)).toNat =
        0 := by
      omega
    rw [hz] at h
    rcases h1 : regeneratePoints cosD sinD o bounds.minX bounds.maxX bounds.minY bounds.maxY
        randAt 0
        ((nP : ℤ) - (people.filter (fun q => !isColliding cosD sinD o q.1 q.2)).length).toNat
      with _ | newPeople
    · rw [h1] at h; exact absurd h (by simp)
    · rw [h1] at h
      simp only [regeneratePoints] at h
      rcases Option.some_inj.mp h with rfl
      simp
  · intro target pts gen h
    simp [resetPoints, h]

/-- Witness for the amended resolve semantics, at the far-obstacle scenario
(two survivors, target one) and a concrete two-point resize. -/
theorem resolve_prefix_semantics_witness :
    (([(0, 0), (1, 1)], ([] : List Point)).1 =
      ([(0, 0), (1, 1)] : List Point).filter
        (fun q => !isColliding cosZero sinZero farObstacle q.1 q.2)) ∧
    resetPoints 1 [(0, 0), (1, 1)] (fun _ => (0, 0)) =
      List.take 1 [(0, 0), (1, 1)] := by
  constructor
  · exact resolve_prefix_semantics.1 cosZero sinZero farObstacle [(0, 0), (1, 1)] []
      arenaBounds 0 1 (fun _ _ => (1 / 2, 1 / 2)) ([(0, 0), (1, 1)], [])
      (by norm_num [updateCollisions, regeneratePoints, isColliding, cosZero, sinZero,
        farObstacle, arenaBounds, List.filter])
      (by norm_num [isColliding, cosZero, sinZero, farObstacle, List.filter])
  · exact resolve_prefix_semantics.2.2 1 [(0, 0), (1, 1)] (fun _ => (0, 0)) (by norm_num)

/-! ### Density classifier: bucket partition -/

/-- Helper: each dedup step appends exactly one index to the bucket. -/
theorem bucketAdd_indices_length (sv : List Point) (b : Bucket) (i : ℕ) :
    (bucketAdd sv b i).indices.length = b.indices.length + 1 := by
  unfold bucketAdd
  rcases h : b.vmap.lookup i with _ | n <;> simp [h]

/-- Helper: each triangle adds exactly three indices to its bucket. -/
theorem bucketAddTriangle_indices_length (sv : List Point) (b : Bucket)
    (t : ℕ × ℕ × ℕ) :
    (bucketAddTriangle sv b t).indices.length = b.indices.length + 3 := by
  unfold bucketAddTriangle
  simp [bucketAdd_indices_length]

/-- Helper: one classifier step grows exactly the bucket chosen by
categorize, by one triangle. -/
theorem densityStep_lengths (src : Mesh) (people : List Point) (thr : ℕ)
    (r : DensityResult) (t : ℕ × ℕ × ℕ) :
    (densityStep src people thr r t).red.indices.length = r.red.indices.length +
      (if categorize (countPeopleInTriangle src.vertices people t) thr = DensityCategory.red
        then 3 else 0) ∧
    (densityStep src people thr r t).orange.indices.length = r.orange.indices.length +
      (if categorize (countPeopleInTriangle src.vertices people t) thr = DensityCategory.orange
        then 3 else 0) ∧
    (densityStep src people thr r t).blue.indices.length = r.blue.indices.length +
      (if categorize (countPeopleInTriangle src.vertices people t) thr = DensityCategory.blue
        then 3 else 0) := by
  unfold densityStep
  rcases h : categorize (countPeopleInTriangle src.vertices people t) thr <;>
    simp [h, bucketAddTriangle_indices_length]

/-- Helper: the classifier fold adds three indices per triangle to the
bucket its category selects. -/
theorem densityFold_lengths (src : Mesh) (people : List Point) (thr : ℕ) :
    ∀ (l : List (ℕ × ℕ × ℕ)) (r0 : DensityResult),
      (l.foldl (densityStep src people thr) r0).red.indices.length =
        r0.red.indices.length + 3 * l.countP
          (fun t => decide (categorize (countPeopleInTriangle src.vertices people t) thr =
            DensityCategory.red)) ∧
      (l.foldl (densityStep src people thr) r0).orange.indices.length =
        r0.orange.indices.length + 3 * l.countP
          (fun t => decide (categorize (countPeopleInTriangle src.vertices people t) thr =
            DensityCategory.orange)) ∧
      (l.foldl (densityStep src people thr) r0).blue.indices.length =
        r0.blue.indices.length + 3 * l.countP
          (fun t => decide (categorize (countPeopleInTriangle src.vertices people t) thr =
            DensityCategory.blue)) := by
  intro l
  induction l with
  | nil => intro r0; simp
  | cons t rest ih =>
    intro r0
    have hstep := densityStep_lengths src people thr r0 t
    have hrec := ih (densityStep src people thr r0 t)
    rcases h : categorize (countPeopleInTriangle src.vertices people t) thr <;>
      · simp only [List.foldl_cons, List.countP_cons, h] at hstep hrec ⊢
        refine ⟨?_, ?_, ?_⟩ <;> simp [hrec.1, hrec.2.1, hrec.2.2, hstep.1, hstep.2.1,
          hstep.2.2, h] <;> omega

/-- Helper: every triangle falls in exactly one category, so the three
per-category counts partition the triangle list. -/
theorem countP_categories (src : Mesh) (people : List Point) (thr : ℕ) :
    ∀ l : List (ℕ × ℕ × ℕ),
      l.countP (fun t => decide (categorize (countPeopleInTriangle src.vertices people t)
        thr = DensityCategory.red)) +
      l.countP (fun t => decide (categorize (countPeopleInTriangle src.vertices people t)
        thr = DensityCategory.orange)) +
      l.countP (fun t => decide (categorize (countPeopleInTriangle src.vertices people t)
        thr = DensityCategory.blue)) = l.length := by
  intro l
  induction l with
  | nil => simp
  | cons t rest ih =>
    rcases h : categorize (countPeopleInTriangle src.vertices people t) thr <;>
      · simp only [List.countP_cons, h, List.length_cons]
        simp
        omega

/-- C6 counterexample: the sole demo triangle with zero people and threshold
0 has count 0 equal to the threshold, so the code files it under orange
(correctly populated), not blue (underpopulated) as the claim asserts: the
blue bucket stays empty. -/
theorem density_zero_people_not_under :
    (getTriangleDensity demoMesh [] 0).blue.indices = [] ∧
    (getTriangleDensity demoMesh [] 0).orange.indices = [0, 1, 2] := by
  constructor <;>
    · norm_num [getTriangleDensity, demoMesh, toTriples, densityStep,
        countPeopleInTriangle, isPointInTriangle, categorize, bucketAddTriangle,
        bucketAdd, List.lookup]
      try rfl

/-- C6 amended: each triangle lands in exactly one bucket by the categorize
trichotomy (count above threshold red, equal orange, below blue), the three
bucket index counts partition the source triangle count, the one-person
demo scenario is classified over (red), and the zero-people demo scenario
is classified correct (orange), count 0 equalling the threshold 0. -/
theorem density_partition (src : Mesh) (people : List Point) (thr : ℕ) :
    (getTriangleDensity src people thr).red.indices.length =
      3 * (toTriples src.indices).countP
        (fun t => decide (categorize (countPeopleInTriangle src.vertices people t) thr =
          DensityCategory.red)) ∧
    (getTriangleDensity src people thr).orange.indices.length =
      3 * (toTriples src.indices).countP
        (fun t => decide (categorize (countPeopleInTriangle src.vertices people t) thr =
          DensityCategory.orange)) ∧
    (getTriangleDensity src people thr).blue.indices.length =
      3 * (toTriples src.indices).countP
        (fun t => decide (categorize (countPeopleInTriangle src.vertices people t) thr =
          DensityCategory.blue)) ∧
    (getTriangleDensity src people thr).red.indices.length +
      (getTriangleDensity src people thr).orange.indices.length +
      (getTriangleDensity src people thr).blue.indices.length =
      3 * (toTriples src.indices).length ∧
    (getTriangleDensity demoMesh [(2, 2)] 0).red.indices = [0, 1, 2] ∧
    (getTriangleDensity demoMesh [(2, 2)] 0).orange.indices = [] ∧
    (getTriangleDensity demoMesh [(2, 2)] 0).blue.indices = [] ∧
    (getTriangleDensity demoMesh [] 0).orange.indices = [0, 1, 2] := by
  have hf := densityFold_lengths src people thr (toTriples src.indices)
    ⟨⟨[], [], []⟩, ⟨[], [], []⟩, ⟨[], [], []⟩⟩
  have hc := countP_categories src people thr (toTriples src.indices)
  simp only [getTriangleDensity]
  refine ⟨?_, ?_, ?_, ?_, ?_, ?_, ?_, ?_⟩
  · simpa using hf.1
  · simpa using hf.2.1
  · simpa using hf.2.2
  · have e1 := hf.1
    have e2 := hf.2.1
    have e3 := hf.2.2
    simp only [List.length_nil, Nat.zero_add] at e1 e2 e3
    omega
  all_goals
    norm_num [getTriangleDensity, demoMesh, toTriples, densityStep,
      countPeopleInTriangle, isPointInTriangle, categorize, bucketAddTriangle,
      bucketAdd, List.lookup]
  all_goals try rfl

/-! ### Mesh editor: edge deletion, closest edge, index validity -/

/-- Helper: the deleteEdge index rebuild is the triple-level filter dropping
exactly the triples containing both endpoints. -/
theorem toTriples_deleteEdgeIndices (v1 v2 : ℕ) :
    ∀ idx, toTriples (deleteEdgeIndices v1 v2 idx) =
      (toTriples idx).filter (fun t => !(triHas t v1 && triHas t v2))
  | [] => by simp [deleteEdgeIndices, toTriples]
  | [a] => by simp [deleteEdgeIndices, toTriples]
  | [a, b] => by simp [deleteEdgeIndices, toTriples]
  | a :: b :: c :: rest => by
    have ih := toTriples_deleteEdgeIndices v1 v2 rest
    cases h1 : triHas (a, b, c) v1 <;> cases h2 : triHas (a, b, c) v2 <;>
      simp [deleteEdgeIndices, toTriples, h1, h2, ih, List.filter_cons]

/-- C7: deleting edge (v1, v2) removes exactly the index triples containing
both endpoints (order-independent membership), keeps every other triple
unchanged in its original relative order (the remainder is a filter of the
original triple sequence), and leaves the vertex list untouched. -/
theorem deleteEdge_removes_exactly (v1 v2 : ℕ) (idx : List ℕ) (m : Mesh) :
    toTriples (deleteEdgeIndices v1 v2 idx) =
      (toTriples idx).filter (fun t => !(triHas t v1 && triHas t v2)) ∧
    (deleteEdgeMesh v1 v2 m).vertices = m.vertices :=
  ⟨toTriples_deleteEdgeIndices v1 v2 idx, rfl⟩

/-- Helper: the edge scan never exceeds its running minimum and ends at or
below the squared distance of every non-degenerate edge it visits. -/
theorem findClosestEdgeLoop_min (p : Point) (vertices : List Point) :
    ∀ (es : List (ℕ × ℕ)) (best : Option (ℕ × ℕ)) (minD : WithTop ℚ),
      (findClosestEdgeLoop p vertices es best minD).distanceSq ≤ minD ∧
      ∀ e ∈ es, edgeL2 vertices e ≠ 0 →
        (findClosestEdgeLoop p vertices es best minD).distanceSq ≤
          (edgeDistSq p vertices e : WithTop ℚ) := by
  intro es
  induction es with
  | nil => intro best minD; exact ⟨le_refl _, by simp⟩
  | cons e rest ih =>
    intro best minD
    by_cases hz : edgeL2 vertices e = 0
    · have h := ih best minD
      constructor
      · simpa [findClosestEdgeLoop, hz] using h.1
      · intro f hf hfz
        rcases List.mem_cons.mp hf with rfl | hmem
        · exact absurd hz hfz
        · simpa [findClosestEdgeLoop, hz] using h.2 f hmem hfz
    · by_cases hlt : (edgeDistSq p vertices e : WithTop ℚ) < minD
      · have h := ih (some e) (edgeDistSq p vertices e)
        constructor
        · calc (findClosestEdgeLoop p vertices (e :: rest) best minD).distanceSq
              = (findClosestEdgeLoop p vertices rest (some e)
                  (edgeDistSq p vertices e)).distanceSq := by
                simp [findClosestEdgeLoop, hz, hlt]
            _ ≤ (edgeDistSq p vertices e : WithTop ℚ) := h.1
            _ ≤ minD := le_of_lt hlt
        · intro f hf hfz
          rcases List.mem_cons.mp hf with rfl | hmem
          · simpa [findClosestEdgeLoop, hz, hlt] using h.1
          · simpa [findClosestEdgeLoop, hz, hlt] using h.2 f hmem hfz
      · have h := ih best minD
        constructor
        · simpa [findClosestEdgeLoop, hz, hlt] using h.1
        · intro f hf hfz
          rcases List.mem_cons.mp hf with rfl | hmem
          · have hle : minD ≤ (edgeDistSq p vertices f : WithTop ℚ) := not_lt.mp hlt
            exact le_trans (by simpa [findClosestEdgeLoop, hz, hlt] using h.1) hle
          · simpa [findClosestEdgeLoop, hz, hlt] using h.2 f hmem hfz

/-- Helper: the edge scan either keeps its incoming state or lands exactly
on a non-degenerate visited edge with that edge's squared distance. -/
theorem findClosestEdgeLoop_attains (p : Point) (vertices : List Point) :
    ∀ (es : List (ℕ × ℕ)) (best : Option (ℕ × ℕ)) (minD : WithTop ℚ),
      ((findClosestEdgeLoop p vertices es best minD).edge = best ∧
       (findClosestEdgeLoop p vertices es best minD).distanceSq = minD) ∨
      ∃ e ∈ es, edgeL2 vertices e ≠ 0 ∧
        (findClosestEdgeLoop p vertices es best minD).edge = some e ∧
        (findClosestEdgeLoop p vertices es best minD).distanceSq =
          (edgeDistSq p vertices e : WithTop ℚ) := by
  intro es
  induction es with
  | nil => intro best minD; exact Or.inl ⟨rfl, rfl⟩
  | cons e rest ih =>
    intro best minD
    by_cases hz : edgeL2 vertices e = 0
    · rcases ih best minD with h | ⟨f, hmem, hfz, hedge, hdist⟩
      · exact Or.inl (by simpa [findClosestEdgeLoop, hz] using h)
      · exact Or.inr ⟨f, List.mem_cons_of_mem e hmem, hfz,
          by simpa [findClosestEdgeLoop, hz] using hedge,
          by simpa [findClosestEdgeLoop, hz] using hdist⟩
    · by_cases hlt : (edgeDistSq p vertices e : WithTop ℚ) < minD
      · rcases ih (some e) (edgeDistSq p vertices e) with h | ⟨f, hmem, hfz, hedge, hdist⟩
        · exact Or.inr ⟨e, List.mem_cons_self e rest, hz,
            by simpa [findClosestEdgeLoop, hz, hlt] using h.1,
            by simpa [findClosestEdgeLoop, hz, hlt] using h.2⟩
        · exact Or.inr ⟨f, List.mem_cons_of_mem e hmem, hfz,
            by simpa [findClosestEdgeLoop, hz, hlt] using hedge,
            by simpa [findClosestEdgeLoop, hz, hlt] using hdist⟩
      · rcases ih best minD with h | ⟨f, hmem, hfz, hedge, hdist⟩
        · exact Or.inl (by simpa [findClosestEdgeLoop, hz, hlt] using h)
        · exact Or.inr ⟨f, List.mem_cons_of_mem e hmem, hfz,
            by simpa [findClosestEdgeLoop, hz, hlt] using hedge,
            by simpa [findClosestEdgeLoop, hz, hlt] using hdist⟩

/-- C8: findClosestEdge returns a squared distance no larger than that of
any non-degenerate edge of any triangle (degenerate zero-length edges are
skipped by the scan, matching the projection formula being undefined on
them), attains it on one of those edges whenever one exists, returns the
null edge at infinite distance when there are no triangles, and on the
concrete spec scenario returns edge (0, 1) at distance 0. -/
theorem findClosestEdge_spec (p : Point) (vertices : List Point) (indices : List ℕ) :
    (∀ e ∈ edgeCandidates (toTriples indices), edgeL2 vertices e ≠ 0 →
      (findClosestEdge p vertices indices).distanceSq ≤
        (edgeDistSq p vertices e : WithTop ℚ)) ∧
    ((∃ e ∈ edgeCandidates (toTriples indices), edgeL2 vertices e ≠ 0) →
      ∃ e ∈ edgeCandidates (toTriples indices), edgeL2 vertices e ≠ 0 ∧
        (findClosestEdge p vertices indices).edge = some e ∧
        (findClosestEdge p vertices indices).distanceSq =
          (edgeDistSq p vertices e : WithTop ℚ)) ∧
    (toTriples indices = [] →
      findClosestEdge p vertices indices = { edge := none, distanceSq := ⊤ }) ∧
    findClosestEdge (5, 0) [(0, 0), (10, 0), (5, 10)] [0, 1, 2] =
      { edge := some (0, 1), distanceSq := ((0 : ℚ) : WithTop ℚ) } := by
  refine ⟨?_, ?_, ?_, ?_⟩
  · exact (findClosestEdgeLoop_min p vertices (edgeCandidates (toTriples indices))
      none ⊤).2
  · rintro ⟨e, hmem, hz⟩
    rcases findClosestEdgeLoop_attains p vertices (edgeCandidates (toTriples indices))
      none ⊤ with h | ⟨f, hfmem, hfz, hedge, hdist⟩
    · exfalso
      have hle := (findClosestEdgeLoop_min p vertices (edgeCandidates (toTriples indices))
        none ⊤).2 e hmem hz
      rw [show (findClosestEdgeLoop p vertices (edgeCandidates (toTriples indices))
        none ⊤).distanceSq = ⊤ from h.2] at hle
      exact absurd hle (not_le.mpr (WithTop.coe_lt_top _))
    · exact ⟨f, hfmem, hfz, hedge, hdist⟩
  · intro h
    simp [findClosestEdge, h, edgeCandidates, findClosestEdgeLoop]
  · simp only [findClosestEdge, findClosestEdgeLoop, edgeCandidates, toTriples, edgeL2,
      edgeDistSq]
    norm_num [WithTop.coe_lt_coe, WithTop.coe_lt_top]
    split_ifs with h1
    · exact absurd h1 (by norm_num)
    · norm_num

/-- Witness for the findClosestEdge specification, at the concrete spec
scenario against the non-degenerate edge (1, 2). -/
theorem findClosestEdge_spec_witness :
    (findClosestEdge (5, 0) [(0, 0), (10, 0), (5, 10)] [0, 1, 2]).distanceSq ≤
      (edgeDistSq (5, 0) [(0, 0), (10, 0), (5, 10)] (1, 2) : WithTop ℚ) :=
  (findClosestEdge_spec (5, 0) [(0, 0), (10, 0), (5, 10)] [0, 1, 2]).1 (1, 2)
    (by simp [edgeCandidates, toTriples])
    (by norm_num [edgeL2])

/-- Helper: every index of a flattened triangle list comes from one of its
triples. -/
theorem mem_flattenTriples (i : ℕ) :
    ∀ l : List (ℕ × ℕ × ℕ), i ∈ flattenTriples l →
      ∃ t ∈ l, i = t.1 ∨ i = t.2.1 ∨ i = t.2.2 := by
  intro l
  induction l with
  | nil => simp [flattenTriples]
  | cons t rest ih =>
    intro h
    simp only [flattenTriples, List.mem_cons] at h
    rcases h with h | h | h | h
    · exact ⟨t, List.mem_cons_self t rest, Or.inl h⟩
    · exact ⟨t, List.mem_cons_self t rest, Or.inr (Or.inl h)⟩
    · exact ⟨t, List.mem_cons_self t rest, Or.inr (Or.inr h)⟩
    · rcases ih h with ⟨f, hf, hi⟩
      exact ⟨f, List.mem_cons_of_mem t hf, hi⟩

/-- Helper: a successful vertex pick is an index into the candidate list. -/
theorem pickVertexLoop_bound (mouse : Point) (pickRadius : ℚ) :
    ∀ (cs : List Point) (i : ℕ) (closest : WithTop ℚ) (best : Option ℕ) (k : ℕ),
      pickVertexLoop mouse pickRadius cs i closest best = some k →
      best = some k ∨ (i ≤ k ∧ k < i + cs.length) := by
  intro cs
  induction cs with
  | nil => intro i closest best k h; exact Or.inl h
  | cons c rest ih =>
    intro i closest best k h
    simp only [pickVertexLoop] at h
    split_ifs at h with hcond
    · rcases ih (i + 1) _ _ k h with h2 | h2
      · rcases Option.some_inj.mp h2 with rfl
        right
        simp only [List.length_cons]
        omega
      · right
        simp only [List.length_cons]
        omega
    · rcases ih (i + 1) _ _ k h with h2 | h2
      · exact Or.inl h2
      · right
        simp only [List.length_cons]
        omega

/-- Helper: pickVertex only returns candidate indices. -/
theorem pickVertex_lt (mouse : Point) (pickRadius : ℚ) (candidates : List Point) (k : ℕ)
    (h : pickVertex mouse pickRadius candidates = some k) : k < candidates.length := by
  rcases pickVertexLoop_bound mouse pickRadius candidates 0 ⊤ none k h with h2 | h2
  · exact absurd h2 (by simp)
  · omega

/-- Helper: the deleteEdge rebuild only keeps indices of the original
list. -/
theorem deleteEdgeIndices_mem (v1 v2 : ℕ) :
    ∀ idx i, i ∈ deleteEdgeIndices v1 v2 idx → i ∈ idx
  | [], i => by simp [deleteEdgeIndices]
  | [a], i => by simp [deleteEdgeIndices]
  | [a, b], i => by simp [deleteEdgeIndices]
  | a :: b :: c :: rest, i => by
    intro h
    have ih := deleteEdgeIndices_mem v1 v2 rest i
    simp only [deleteEdgeIndices] at h
    by_cases hc : (triHas (a, b, c) v1 && triHas (a, b, c) v2) = true
    · rw [if_pos hc] at h
      simp only [List.mem_cons]
      have := ih h
      tauto
    · rw [if_neg hc] at h
      simp only [List.mem_cons] at h ⊢
      rcases h with rfl | rfl | rfl | h
      · tauto
      · tauto
      · tauto
      · have := ih h
        tauto

/-- C4 amended: triangulateWithObstacle yields a mesh whose indices all lie
below the vertex count provided the cdt2d primitive honors its contract
(every returned index below its input point count); the deleteEdge rebuild
always preserves index validity; the addTriangle append preserves it
exactly when the pick-candidate list is no longer than the mesh vertex
list (which holds when the mesh was triangulated from the current dots,
but can fail after the dots grow without retriangulation). -/
theorem mesh_index_validity :
    (∀ (cdt2dFn : List Point → List (ℕ × ℕ) → List (ℕ × ℕ × ℕ)) (cosD sinD : ℚ → ℚ)
      (o : Obstacle) (flatPoints : List Point),
      (∀ pts cons t, t ∈ cdt2dFn pts cons →
        t.1 < pts.length ∧ t.2.1 < pts.length ∧ t.2.2 < pts.length) →
      meshValid (triangulateWithObstacle cdt2dFn cosD sinD o flatPoints)) ∧
    (∀ (mouse : Point) (pickRadius : ℚ) (candidates : List Point) (selection : List ℕ)
      (m : Mesh),
      meshValid m → (∀ i ∈ selection, i < m.vertices.length) →
      candidates.length ≤ m.vertices.length →
      meshValid (addTriangleClick mouse pickRadius candidates selection m).2) ∧
    (∀ (v1 v2 : ℕ) (m : Mesh), meshValid m → meshValid (deleteEdgeMesh v1 v2 m)) := by
  refine ⟨?_, ?_, ?_⟩
  · intro cdt2dFn cosD sinD o flatPoints hc i hi
    simp only [triangulateWithObstacle] at hi ⊢
    rcases mem_flattenTriples i _ hi with ⟨t, ht, hcase⟩
    have hb := hc _ _ t ht
    rcases hcase with rfl | rfl | rfl
    · exact hb.1
    · exact hb.2.1
    · exact hb.2.2
  · intro mouse pickRadius candidates selection m hm hsel hlen
    simp only [addTriangleClick]
    rcases hpk : pickVertex mouse pickRadius candidates with _ | k
    · exact hm
    · have hk : k < m.vertices.length :=
        lt_of_lt_of_le (pickVertex_lt mouse pickRadius candidates k hpk) hlen
      by_cases hks : k ∈ selection
      · simp only [if_pos hks]
        exact hm
      · simp only [if_neg hks]
        by_cases h3 : (selection ++ [k]).length = 3
        · simp only [if_pos h3]
          intro i hi
          simp only [List.mem_append, List.mem_singleton] at hi
          rcases hi with hi | hi | rfl
          · exact hm i hi
          · exact hsel i hi
          · exact hk
        · simp only [if_neg h3]
          exact hm
  · intro v1 v2 m hm i hi
    exact hm i (deleteEdgeIndices_mem v1 v2 m.indices i hi)

/-- C4 counterexample: after the dots array grows (slider change, which
calls update(false) and does not retriangulate), an addTriangle mousedown
picks from thirteen candidates while the stale mesh has eight vertices; a
click on the last obstacle corner picks index 12, and the appended triple
[0, 1, 12] leaves the mesh with an index at or beyond the vertex count. -/
theorem addTriangle_breaks_index_validity :
    meshValid staleMesh ∧
    (addTriangleClick (-50, 50) 5 grownCandidates [0, 1] staleMesh).2.indices =
      [0, 1, 2, 0, 1, 12] ∧
    ¬ meshValid (addTriangleClick (-50, 50) 5 grownCandidates [0, 1] staleMesh).2 := by
  have hlen : staleMesh.vertices.length = 8 := by
    simp [staleMesh, triangulateWithObstacle, arenaCorners, getObstacleCorners]
  have hidx : staleMesh.indices = [0, 1, 2] := by
    simp [staleMesh, triangulateWithObstacle, cdtStub, flattenTriples]
  have hpick : pickVertex (-50, 50) 5 grownCandidates = some 12 := by
    simp only [pickVertex, pickVertexLoop, grownCandidates, grownDots, arenaCorners,
      getObstacleCorners, cosZero, sinZero, demoObstacle, List.append_assoc,
      List.cons_append, List.nil_append, List.map_cons, List.map_nil]
    norm_num [WithTop.coe_lt_coe, WithTop.coe_lt_top]
  have hclick : (addTriangleClick (-50, 50) 5 grownCandidates [0, 1] staleMesh).2 =
      { staleMesh with indices := staleMesh.indices ++ [0, 1, 12] } := by
    simp [addTriangleClick, hpick]
  refine ⟨?_, ?_, ?_⟩
  · intro i hi
    rw [hidx] at hi
    rw [hlen]
    fin_cases hi <;> omega
  · rw [hclick, hidx]
    rfl
  · intro hvalid
    have h12 : (12 : ℕ) ∈
        (addTriangleClick (-50, 50) 5 grownCandidates [0, 1] staleMesh).2.indices := by
      rw [hclick, hidx]
      simp
    have := hvalid 12 h12
    rw [hclick] at this
    simp only [hlen] at this
    omega

/-- Witness for the amended mesh index validity, instantiating all three
parts at small concrete inputs. -/
theorem mesh_index_validity_witness :
    meshValid (triangulateWithObstacle (fun _ _ => []) cosZero sinZero demoObstacle []) ∧
    meshValid (addTriangleClick (0, 0) 1 [] [] demoMesh).2 ∧
    meshValid (deleteEdgeMesh 0 1 demoMesh) := by
  have hdemo : meshValid demoMesh := by
    intro i hi
    simp only [demoMesh] at hi ⊢
    fin_cases hi <;> simp
  refine ⟨?_, ?_, ?_⟩
  · exact mesh_index_validity.1 (fun _ _ => []) cosZero sinZero demoObstacle []
      (by intro pts cons t ht; exact absurd ht (by simp))
  · exact mesh_index_validity.2.1 (0, 0) 1 [] [] demoMesh hdemo
      (by intro i hi; exact absurd hi (by simp)) (by simp [demoMesh])
  · exact mesh_index_validity.2.2 0 1 demoMesh hdemo

end CrowdSim
